import Mathlib

/-!
Verification of `cat2axy.cpp`: a pipeline that loads a SExtractor
catalog (`load_cat`), selects spatially distributed reference stars
(`select_refstar`) and writes an astrometry.net `.axy` file (`main` /
`output_axy`).

Shallow embedding conventions:
* `float` values are modelled as rationals (`ℚ`); all arithmetic that
  occurs in the program (subtraction, division by the power of two 128)
  is exact in single precision for the magnitudes involved, so `ℚ`
  mirrors it faithfully.
* C `int` arithmetic is modelled on `ℤ` with `Int.tdiv` / `Int.tmod`
  (C99 division truncates toward zero); the C cast `(int)` of a `float`
  also truncates toward zero (`ctrunc` below).
* The catalog file is modelled after `fgets`/`strtok`/`atof`: each
  non-comment line becomes the list of numeric values `atof` produced
  for its whitespace tokens, each comment line (first char `#`) is a
  `CatLine.comment`.
* `fopen` failure is modelled by feeding `none` instead of `some lines`
  to `load_cat`.
* `std::sort` guarantees a permutation that is sorted with respect to
  the comparator; it is modelled by `List.insertionSort`, one such
  permutation (the program's ordering on ties is unspecified).
-/

namespace Cat2Axy

/-- The `GRID` macro of `cat2axy.cpp`: edge length of a grid cell. -/
def GRID : ℤ := 128

/-- C `int` division (truncation toward zero) as in `(w + GRID - 1) / GRID`. -/
def cdiv (a b : ℤ) : ℤ := a.tdiv b

/-- C `int` remainder (sign of the dividend) as in `w % GRID`. -/
def cmod (a b : ℤ) : ℤ := a.tmod b

/-- C cast of a `float` to `int` (C99 6.3.1.4): the fractional part is
discarded, i.e. the value is truncated toward zero — floor for
nonnegative values, ceiling for negative ones. -/
def ctrunc (q : ℚ) : ℤ := if 0 ≤ q then ⌊q⌋ else ⌈q⌉

/-- One detected star: the struct `aobject`, whose array `info` holds the
five fields at indices `NDX_X, NDX_Y, NDX_FLUX, NDX_FWHM, NDX_ELON`. -/
structure Aobject where
  x : ℚ
  y : ℚ
  flux : ℚ
  fwhm : ℚ
  elongation : ℚ
deriving DecidableEq, Repr

/-- The `info` array of `aobject`, indexed by `NDX_X = 0`, `NDX_Y = 1`,
`NDX_FLUX = 2`, `NDX_FWHM = 3`, `NDX_ELON = 4`. -/
def Aobject.info (o : Aobject) : ℕ → ℚ
  | 0 => o.x
  | 1 => o.y
  | 2 => o.flux
  | 3 => o.fwhm
  | 4 => o.elongation
  | _ => 0

/-- A line of the catalog file as `load_cat` sees it: either a comment
line (first character `#`, skipped), or a data line given as the list of
numeric values `atof` yields for its `strtok` tokens in order. -/
inductive CatLine where
  | comment : CatLine
  | data : List ℚ → CatLine
deriving DecidableEq, Repr

/-- The record built for one data line: `boost::make_shared<aobject>()`
value-initializes the struct (all of `info` starts at `0.0`), then the
loop `while (token && ++pos < NDX_NUM) one->info[pos] = atof(token)`
overwrites `info[pos]` with the first five token values; tokens past the
fifth are ignored, fields past the last token keep their zero value. -/
def parseObject (toks : List ℚ) : Aobject :=
  { x := toks.getD 0 0
    y := toks.getD 1 0
    flux := toks.getD 2 0
    fwhm := toks.getD 3 0
    elongation := toks.getD 4 0 }

/-- The admission filter of `load_cat`:
`info[NDX_FLUX] > 30.0 && info[NDX_FWHM] > 1.0 && info[NDX_ELON] < 2.0`. -/
def passFilter (o : Aobject) : Bool :=
  decide (30 < o.flux) && decide (1 < o.fwhm) && decide (o.elongation < 2)

/-- The records `load_cat` builds, one per non-comment line, in file order. -/
def parsedObjects (ls : List CatLine) : List Aobject :=
  ls.filterMap fun l =>
    match l with
    | CatLine.comment => none
    | CatLine.data toks => some (parseObject toks)

/-- The comparator `less_brightness` of `cat2axy.cpp`:
`x1->info[NDX_FLUX] > x2->info[NDX_FLUX]`. -/
def less_brightness (x1 x2 : Aobject) : Prop := x2.flux < x1.flux

instance : DecidableRel less_brightness :=
  fun x1 x2 => inferInstanceAs (Decidable (x2.flux < x1.flux))

/-- Order in which `std::sort(objs, less_brightness)` leaves elements:
`a` may precede `b` exactly when the comparator does not demand `b`
before `a`. -/
def sortedBefore (x1 x2 : Aobject) : Prop := ¬ less_brightness x2 x1

instance : DecidableRel sortedBefore :=
  fun x1 x2 => inferInstanceAs (Decidable ¬ less_brightness x2 x1)

instance : IsTotal Aobject sortedBefore :=
  ⟨fun a b => by
    unfold sortedBefore less_brightness
    rcases le_total a.flux b.flux with h | h
    · exact Or.inr (not_lt.mpr h)
    · exact Or.inl (not_lt.mpr h)⟩

instance : IsTrans Aobject sortedBefore :=
  ⟨fun a b c hab hbc => by
    unfold sortedBefore less_brightness at *
    exact not_lt.mpr (le_trans (not_lt.mp hbc) (not_lt.mp hab))⟩

/-- The call `sort(objs.begin(), objs.end(), less_brightness)`: a
permutation sorted so that no later element is brighter than an earlier
one. -/
def sortBrightness (objs : List Aobject) : List Aobject :=
  List.insertionSort sortedBefore objs

/-- `load_cat`: `none` models `fopen` returning `NULL` (the function
returns `false` and leaves `objs` empty); on an opened file it parses
each non-comment line, keeps a record iff the admission filter passes,
sorts the kept records by descending flux, and returns `true`. -/
def load_cat (cat : Option (List CatLine)) : Option (List Aobject) :=
  match cat with
  | none => none
  | some ls => some (sortBrightness ((parsedObjects ls).filter passFilter))

/-- Grid column of a candidate in `select_refstar`:
`i = ((*it)->info[NDX_X] - x0) / GRID` — float arithmetic, then the
assignment to `int i` truncates toward zero. -/
def cellI (x0 : ℤ) (o : Aobject) : ℤ := ctrunc ((o.x - (x0 : ℚ)) / (GRID : ℚ))

/-- Grid row of a candidate in `select_refstar`, like `cellI`. -/
def cellJ (y0 : ℤ) (o : Aobject) : ℤ := ctrunc ((o.y - (y0 : ℚ)) / (GRID : ℚ))

/-- The counter index used by `select_refstar`: `map[k = i * j]` combines
the two grid coordinates by multiplication. -/
def cellKey (x0 y0 : ℤ) (o : Aobject) : ℤ := cellI x0 o * cellJ y0 o

/-- Loop body of the general case of `select_refstar` for one candidate:
state is the occupancy array `map` (modelled as a total function, zero
outside the touched indices) together with the `refs` accumulated so
far.  A candidate with `i == nw || j == nh` is skipped; otherwise it is
accepted iff `map[i*j] <= 5`, and acceptance increments the counter. -/
def selectStep (x0 y0 nw nh : ℤ) (st : (ℤ → ℤ) × List Aobject) (o : Aobject) :
    (ℤ → ℤ) × List Aobject :=
  let i := cellI x0 o
  let j := cellJ y0 o
  if i = nw ∨ j = nh then st
  else
    let k := i * j
    if st.1 k ≤ 5 then (Function.update st.1 k (st.1 k + 1), st.2 ++ [o])
    else st

/-- `select_refstar(objs, w, h, refs)`: computes `nw = (w+GRID-1)/GRID`,
`nh = (h+GRID-1)/GRID`; if `nw * nh < 4` it copies every candidate into
`refs`; otherwise it centers the grid with `x0 = (w % GRID) / 2`,
`y0 = (h % GRID) / 2`, zeroes the occupancy array and runs `selectStep`
over the candidates in their incoming order. -/
def select_refstar (objs : List Aobject) (w h : ℤ) : List Aobject :=
  let nw := cdiv (w + GRID - 1) GRID
  let nh := cdiv (h + GRID - 1) GRID
  if nw * nh < 4 then objs
  else
    let x0 := cdiv (cmod w GRID) 2
    let y0 := cdiv (cmod h GRID) 2
    (objs.foldl (selectStep x0 y0 nw nh) (fun _ => 0, [])).2

/-- Characters of a path after the last `/` (the filename component). -/
def fnameChars (cs : List Char) : List Char :=
  (cs.reverse.takeWhile (fun c => c ≠ '/')).reverse

/-- Characters of a path up to and including the last `/`. -/
def dirChars (cs : List Char) : List Char :=
  cs.take (cs.length - (fnameChars cs).length)

/-- The filename with its extension removed, following
`boost::filesystem::path::replace_extension`: the extension is the part
of the filename from its last `.` on (none for the special names `.`
and `..`, or when the filename holds no `.`). -/
def dropExtension (fname : List Char) : List Char :=
  if fname = ['.'] ∨ fname = ['.', '.'] then fname
  else if fname.contains '.' then
    ((fname.reverse.dropWhile (fun c => c ≠ '.')).tail).reverse
  else fname

/-- The call `pathaxy.replace_extension(fs::path(".axy"))` in `main`:
the input path with the extension of its last component replaced by
`.axy`. -/
def replace_extension_axy (p : String) : String :=
  String.mk (dirChars p.data ++ dropExtension (fnameChars p.data) ++ [ '.', 'a', 'x', 'y' ])

/-- Outcome of a run of `main` after argument parsing, as observable in
its output: either the load failed (message on stdout, no file), or too
few reference stars were selected (message on stdout, no file), or
`output_axy` was invoked exactly once with the given path and rows. -/
inductive DriverResult where
  | loadFailed (msg : String)
  | notEnoughRefs (msg : String)
  | wroteFile (path : String) (refs : List Aobject)
deriving DecidableEq, Repr

/-- The pipeline of `main` once `argc` is sufficient: derive the output
path, run `load_cat`; on failure print `"failed to load CAT file: "`
followed by the path; otherwise run `select_refstar` and either call
`output_axy(refs, pathaxy)` when `refs.size() >= 5` or print
`"not found enough reference stars"`. -/
def runDriver (cat : Option (List CatLine)) (pathcat : String) (w h : ℤ) : DriverResult :=
  match load_cat cat with
  | none => DriverResult.loadFailed (String.append "failed to load CAT file: " pathcat)
  | some objs =>
      let refs := select_refstar objs w h
      if 5 ≤ refs.length then
        DriverResult.wroteFile (replace_extension_axy pathcat) refs
      else
        DriverResult.notEnoughRefs "not found enough reference stars"

/-! Helper lemmas: integer forms of the truncating conversions, used both
to evaluate concrete runs and to compare the code with the spec. -/

/-- Truncating division by 128 expressed on the integers (`/` is
Euclidean division, which agrees with floor division for the positive
divisor 128). -/
def ctruncDiv (a : ℤ) : ℤ := if 0 ≤ a then a / 128 else -(-a / 128)

theorem ctrunc_intCast_div (a : ℤ) : ctrunc ((a : ℚ) / 128) = ctruncDiv a := by
  unfold ctrunc ctruncDiv
  rcases le_or_lt 0 a with h | h
  · rw [if_pos (div_nonneg (by exact_mod_cast h) (by norm_num)), if_pos h]
    have h2 : ((128 : ℚ)) = ((128 : ℕ) : ℚ) := by norm_num
    rw [h2, Rat.floor_intCast_div_natCast]
    norm_num
  · have hq : ((a : ℚ)) / 128 < 0 :=
      div_neg_of_neg_of_pos (by exact_mod_cast h) (by norm_num)
    rw [if_neg (not_le.mpr hq), if_neg (not_le.mpr h)]
    have h1 : (a : ℚ) / 128 = -(((-a : ℤ) : ℚ) / 128) := by push_cast; ring
    rw [h1, Int.ceil_neg]
    have h2 : ((128 : ℚ)) = ((128 : ℕ) : ℚ) := by norm_num
    rw [h2, Rat.floor_intCast_div_natCast]
    norm_num

theorem cellI_int (x0 n : ℤ) (o : Aobject) (hx : o.x = (n : ℚ)) :
    cellI x0 o = ctruncDiv (n - x0) := by
  unfold cellI GRID
  have h1 : (o.x - (x0 : ℚ)) / (((128 : ℤ)) : ℚ) = (((n - x0 : ℤ)) : ℚ) / 128 := by
    rw [hx]; push_cast; ring
  rw [h1, ctrunc_intCast_div]

theorem cellJ_int (y0 n : ℤ) (o : Aobject) (hy : o.y = (n : ℚ)) :
    cellJ y0 o = ctruncDiv (n - y0) := by
  unfold cellJ GRID
  have h1 : (o.y - (y0 : ℚ)) / (((128 : ℤ)) : ℚ) = (((n - y0 : ℤ)) : ℚ) / 128 := by
    rw [hy]; push_cast; ring
  rw [h1, ctrunc_intCast_div]

theorem cdiv_128 (a : ℤ) : cdiv a 128 = if 0 ≤ a then a / 128 else -(-a / 128) := by
  unfold cdiv
  rcases le_or_lt 0 a with h | h
  · rw [if_pos h, Int.tdiv_eq_ediv h (by norm_num)]
  · rw [if_neg (not_le.mpr h)]
    have h2 : a.tdiv 128 = -((-a).tdiv 128) := by rw [Int.neg_tdiv, neg_neg]
    rw [h2, Int.tdiv_eq_ediv (by omega) (by norm_num)]

theorem ceil_div_128 (w : ℤ) : ⌈(w : ℚ) / 128⌉ = -(-w / 128) := by
  have h1 : (w : ℚ) / 128 = -(((-w : ℤ) : ℚ) / 128) := by push_cast; ring
  rw [h1, Int.ceil_neg]
  have h2 : ((128 : ℚ)) = ((128 : ℕ) : ℚ) := by norm_num
  rw [h2, Rat.floor_intCast_div_natCast]
  norm_num

theorem select_refstar_small (objs : List Aobject) (w ht : ℤ)
    (h3 : cdiv (w + GRID - 1) GRID * cdiv (ht + GRID - 1) GRID < 4) :
    select_refstar objs w ht = objs := by
  unfold select_refstar
  rw [if_pos h3]

theorem select_refstar_general (objs : List Aobject) (w ht nw nh x0 y0 : ℤ)
    (h1 : cdiv (w + GRID - 1) GRID = nw) (h2 : cdiv (ht + GRID - 1) GRID = nh)
    (h3 : ¬ nw * nh < 4)
    (h4 : cdiv (cmod w GRID) 2 = x0) (h5 : cdiv (cmod ht GRID) 2 = y0) :
    select_refstar objs w ht = (objs.foldl (selectStep x0 y0 nw nh) (fun _ => 0, [])).2 := by
  unfold select_refstar
  rw [h1, h2, h4, h5, if_neg h3]

theorem load_cat_eq (ls : List CatLine) (objs : List Aobject)
    (hload : load_cat (some ls) = some objs) :
    objs = sortBrightness ((parsedObjects ls).filter passFilter) := by
  unfold load_cat at hload
  exact (Option.some_inj.mp hload).symm

theorem mem_sortBrightness (l : List Aobject) (o : Aobject) :
    o ∈ sortBrightness l ↔ o ∈ l :=
  (List.perm_insertionSort sortedBefore l).mem_iff

theorem passFilter_iff (o : Aobject) :
    passFilter o = true ↔ 30 < o.flux ∧ 1 < o.fwhm ∧ o.elongation < 2 := by
  unfold passFilter
  simp [Bool.and_eq_true, decide_eq_true_eq, and_assoc]

theorem mem_load_cat (ls : List CatLine) (objs : List Aobject) (o : Aobject)
    (hload : load_cat (some ls) = some objs) :
    o ∈ objs ↔ o ∈ parsedObjects ls ∧ 30 < o.flux ∧ 1 < o.fwhm ∧ o.elongation < 2 := by
  rw [load_cat_eq ls objs hload, mem_sortBrightness, List.mem_filter, passFilter_iff]

/-- C1: a parsed record appears in the candidate list returned by
`load_cat` iff its fields satisfy `flux > 30.0 ∧ fwhm > 1.0 ∧
elongation < 2.0` (fields as parsed from the line's first five tokens,
missing fields at their default value `0`). -/
theorem load_cat_admission_iff (ls : List CatLine) (objs : List Aobject) (o : Aobject)
    (hload : load_cat (some ls) = some objs) (hparsed : o ∈ parsedObjects ls) :
    o ∈ objs ↔ 30 < o.flux ∧ 1 < o.fwhm ∧ o.elongation < 2 := by
  rw [mem_load_cat ls objs o hload]
  exact and_iff_right hparsed

theorem load_cat_admission_iff_witness :
    ((⟨1, 2, 50, 3, 1⟩ : Aobject) ∈ ([⟨1, 2, 50, 3, 1⟩] : List Aobject) ↔
      30 < (⟨1, 2, 50, 3, 1⟩ : Aobject).flux ∧
        1 < (⟨1, 2, 50, 3, 1⟩ : Aobject).fwhm ∧
          (⟨1, 2, 50, 3, 1⟩ : Aobject).elongation < 2) :=
  load_cat_admission_iff
    [CatLine.data [1, 2, 50, 3, 1], CatLine.comment, CatLine.data [0, 0, 10, 5, 1]]
    [⟨1, 2, 50, 3, 1⟩] ⟨1, 2, 50, 3, 1⟩ (by decide) (by decide)

/-- C2: the candidate list returned by `load_cat` is sorted in
descending flux order: every adjacent pair satisfies
`flux[i] ≥ flux[i+1]`. -/
theorem load_cat_sorted_flux (ls : List CatLine) (objs : List Aobject)
    (hload : load_cat (some ls) = some objs) (i : ℕ) (hi : i + 1 < objs.length) :
    (objs.get ⟨i + 1, hi⟩).flux ≤ (objs.get ⟨i, by omega⟩).flux := by
  have hs : List.Sorted sortedBefore objs := by
    rw [load_cat_eq ls objs hload]
    exact List.sorted_insertionSort sortedBefore _
  have hrel := hs.rel_get_of_lt
    (a := ⟨i, by omega⟩) (b := ⟨i + 1, hi⟩) (by simp [Fin.lt_def])
  exact not_lt.mp hrel

theorem load_cat_sorted_flux_witness :
    ((([⟨5, 6, 50, 3, 1⟩, ⟨1, 2, 40, 3, 1⟩] : List Aobject).get
        ⟨0 + 1, by decide⟩).flux) ≤
      ((([⟨5, 6, 50, 3, 1⟩, ⟨1, 2, 40, 3, 1⟩] : List Aobject).get
        ⟨0, by decide⟩).flux) :=
  load_cat_sorted_flux
    [CatLine.data [1, 2, 40, 3, 1], CatLine.data [5, 6, 50, 3, 1]]
    [⟨5, 6, 50, 3, 1⟩, ⟨1, 2, 40, 3, 1⟩] (by decide) 0 (by decide)

theorem cdiv_ceil_facts (w : ℤ) :
    ⌈(w : ℚ) / 128⌉ ≤ cdiv (w + GRID - 1) GRID ∧
      (1 ≤ cdiv (w + GRID - 1) GRID → cdiv (w + GRID - 1) GRID = ⌈(w : ℚ) / 128⌉) := by
  rw [ceil_div_128]
  unfold GRID
  rw [cdiv_128]
  rcases le_or_lt 0 (w + 128 - 1) with h | h
  · rw [if_pos h]
    exact ⟨by omega, fun _ => by omega⟩
  · rw [if_neg (not_le.mpr h)]
    exact ⟨by omega, fun h1 => by omega⟩

/-- C5: whenever `⌈w/128⌉ * ⌈h/128⌉ < 4`, `select_refstar` copies the
candidate list unchanged in count and order: no spatial filtering is
applied. -/
theorem select_refstar_passthrough (objs : List Aobject) (w ht : ℤ)
    (hsmall : ⌈(w : ℚ) / 128⌉ * ⌈(ht : ℚ) / 128⌉ < 4) :
    select_refstar objs w ht = objs := by
  apply select_refstar_small
  obtain ⟨hw1, hw2⟩ := cdiv_ceil_facts w
  obtain ⟨hh1, hh2⟩ := cdiv_ceil_facts ht
  set cw := cdiv (w + GRID - 1) GRID with hcw
  set ch := cdiv (ht + GRID - 1) GRID with hch
  set sw := ⌈(w : ℚ) / 128⌉ with hsw
  set sh := ⌈(ht : ℚ) / 128⌉ with hsh
  by_cases h1 : 1 ≤ cw
  · by_cases h2 : 1 ≤ ch
    · rw [hw2 h1, hh2 h2]
      exact hsmall
    · have hch0 : ch ≤ 0 := by omega
      have : cw * ch ≤ 0 := mul_nonpos_of_nonneg_of_nonpos (by omega) hch0
      omega
  · have hcw0 : cw ≤ 0 := by omega
    by_cases h2 : 0 ≤ ch
    · have : cw * ch ≤ 0 := mul_nonpos_of_nonpos_of_nonneg hcw0 h2
      omega
    · have hch0 : ch ≤ 0 := by omega
      have hsh0 : sh ≤ 0 := le_trans hh1 hch0
      have e1 : cw * ch ≤ cw * sh := mul_le_mul_of_nonpos_left hh1 hcw0
      have e2 : cw * sh ≤ sw * sh := mul_le_mul_of_nonpos_right hw1 hsh0
      omega

theorem select_refstar_passthrough_witness :
    select_refstar [⟨1, 2, 50, 3, 1⟩, ⟨7, 8, 40, 3, 1⟩] 100 100 =
      [⟨1, 2, 50, 3, 1⟩, ⟨7, 8, 40, 3, 1⟩] :=
  select_refstar_passthrough [⟨1, 2, 50, 3, 1⟩, ⟨7, 8, 40, 3, 1⟩] 100 100
    (by rw [ceil_div_128]; decide)

/-! Concrete data for the grid-collision demonstration: a 512×512 image
(grid of 4×4 cells, offsets `x0 = y0 = 0`).  Six stars sit in cell
`(1,2)` and one further star in the distinct cell `(2,1)`; both cells
map to the counter index `1*2 = 2*1 = 2`. -/

def starA1 : Aobject := ⟨130, 260, 100, 2, 1⟩

def starA2 : Aobject := ⟨131, 260, 99, 2, 1⟩

def starA3 : Aobject := ⟨132, 260, 98, 2, 1⟩

def starA4 : Aobject := ⟨133, 260, 97, 2, 1⟩

def starA5 : Aobject := ⟨134, 260, 96, 2, 1⟩

def starA6 : Aobject := ⟨135, 260, 95, 2, 1⟩

def starB7 : Aobject := ⟨260, 130, 94, 2, 1⟩

def collideObjs : List Aobject :=
  [starA1, starA2, starA3, starA4, starA5, starA6, starB7]

theorem cellI_starA1 : cellI 0 starA1 = 1 := by
  rw [cellI_int 0 130 starA1 (by norm_num [starA1])]; decide

theorem cellI_starA2 : cellI 0 starA2 = 1 := by
  rw [cellI_int 0 131 starA2 (by norm_num [starA2])]; decide

theorem cellI_starA3 : cellI 0 starA3 = 1 := by
  rw [cellI_int 0 132 starA3 (by norm_num [starA3])]; decide

theorem cellI_starA4 : cellI 0 starA4 = 1 := by
  rw [cellI_int 0 133 starA4 (by norm_num [starA4])]; decide

theorem cellI_starA5 : cellI 0 starA5 = 1 := by
  rw [cellI_int 0 134 starA5 (by norm_num [starA5])]; decide

theorem cellI_starA6 : cellI 0 starA6 = 1 := by
  rw [cellI_int 0 135 starA6 (by norm_num [starA6])]; decide

theorem cellJ_starA (o : Aobject) (hy : o.y = 260) : cellJ 0 o = 2 := by
  rw [cellJ_int 0 260 o (by rw [hy]; norm_num)]; decide

theorem cellI_starB7 : cellI 0 starB7 = 2 := by
  rw [cellI_int 0 260 starB7 (by norm_num [starB7])]; decide

theorem cellJ_starB7 : cellJ 0 starB7 = 1 := by
  rw [cellJ_int 0 130 starB7 (by norm_num [starB7])]; decide

/-- C3: the occupancy counter is addressed by the product `i * j` of the
two grid coordinates, so the distinct cells `(1,2)` and `(2,1)` share
one counter.  Concretely, on a 512×512 image the six stars of cell
`(1,2)` fill counter `2` up to the cap, after which `starB7` — alone in
cell `(2,1)` — tests the same counter and is dropped from the selection. -/
theorem select_refstar_key_collision :
    (cellI 0 starB7, cellJ 0 starB7) ≠ (cellI 0 starA1, cellJ 0 starA1) ∧
      cellKey 0 0 starB7 = cellKey 0 0 starA1 ∧
        select_refstar collideObjs 512 512 =
          [starA1, starA2, starA3, starA4, starA5, starA6] := by
  refine ⟨?_, ?_, ?_⟩
  · rw [cellI_starB7, cellJ_starB7, cellI_starA1, cellJ_starA (starA1) (by norm_num [starA1])]
    decide
  · unfold cellKey
    rw [cellI_starB7, cellJ_starB7, cellI_starA1, cellJ_starA (starA1) (by norm_num [starA1])]
    decide
  · rw [select_refstar_general collideObjs 512 512 4 4 0 0 (by decide) (by decide)
      (by decide) (by decide) (by decide)]
    simp only [collideObjs, List.foldl_cons, List.foldl_nil, selectStep,
      cellI_starA1, cellI_starA2, cellI_starA3, cellI_starA4, cellI_starA5, cellI_starA6,
      cellI_starB7, cellJ_starB7,
      cellJ_starA starA1 (by norm_num [starA1]), cellJ_starA starA2 (by norm_num [starA2]),
      cellJ_starA starA3 (by norm_num [starA3]), cellJ_starA starA4 (by norm_num [starA4]),
      cellJ_starA starA5 (by norm_num [starA5]), cellJ_starA starA6 (by norm_num [starA6]),
      Function.update_apply]
    norm_num

theorem selectStep_count_invariant (x0 y0 nw nh : ℤ) (objs : List Aobject) (k : ℤ)
    (st : (ℤ → ℤ) × List Aobject)
    (hinv : ∀ k' : ℤ,
      st.1 k' = (st.2.countP (fun o => decide (cellKey x0 y0 o = k')) : ℤ) ∧ st.1 k' ≤ 6) :
    ((objs.foldl (selectStep x0 y0 nw nh) st).2.countP
      (fun o => decide (cellKey x0 y0 o = k)) : ℤ) ≤ 6 := by
  induction objs generalizing st with
  | nil =>
      have h := hinv k
      simp only [List.foldl_nil]
      rw [← h.1]
      exact h.2
  | cons o rest ih =>
      simp only [List.foldl_cons]
      apply ih
      intro k'
      simp only [selectStep]
      by_cases hd : cellI x0 o = nw ∨ cellJ y0 o = nh
      · rw [if_pos hd]
        exact hinv k'
      · rw [if_neg hd]
        by_cases hc : st.1 (cellI x0 o * cellJ y0 o) ≤ 5
        · rw [if_pos hc]
          dsimp only
          constructor
          · rw [Function.update_apply, List.countP_append]
            by_cases hk : k' = cellI x0 o * cellJ y0 o
            · rw [if_pos hk]
              have h1 := (hinv k').1
              have h2 : List.countP (fun o' => decide (cellKey x0 y0 o' = k')) [o] = 1 := by
                simp [cellKey, hk]
              rw [h2, ← hk, h1]
              push_cast
              omega
            · rw [if_neg hk]
              have h1 := (hinv k').1
              have h2 : List.countP (fun o' => decide (cellKey x0 y0 o' = k')) [o] = 0 := by
                simp [cellKey]
                exact fun hcontra => hk hcontra.symm
              rw [h2, h1]
              push_cast
              omega
          · rw [Function.update_apply]
            by_cases hk : k' = cellI x0 o * cellJ y0 o
            · rw [if_pos hk]
              omega
            · rw [if_neg hk]
              exact (hinv k').2
        · rw [if_neg hc]
          exact hinv k'

/-- C4: in the general case of `select_refstar` a candidate is accepted
only while the occupancy counter at its index `i*j` is at most 5, and
each acceptance increments that counter, so at most `5+1 = 6` accepted
candidates map to any one counter index `k`. -/
theorem select_refstar_cell_cap (objs : List Aobject) (w ht : ℤ)
    (hbig : 4 ≤ cdiv (w + GRID - 1) GRID * cdiv (ht + GRID - 1) GRID) (k : ℤ) :
    ((select_refstar objs w ht).countP
      (fun o => decide (cellKey (cdiv (cmod w GRID) 2) (cdiv (cmod ht GRID) 2) o = k))) ≤ 6 := by
  rw [select_refstar_general objs w ht _ _ _ _ rfl rfl (not_lt.mpr hbig) rfl rfl]
  have h := selectStep_count_invariant (cdiv (cmod w GRID) 2) (cdiv (cmod ht GRID) 2)
    (cdiv (w + GRID - 1) GRID) (cdiv (ht + GRID - 1) GRID) objs k
    (fun _ => 0, []) (by intro k'; simp)
  exact_mod_cast h

theorem select_refstar_cell_cap_witness :
    ((select_refstar collideObjs 512 512).countP
      (fun o => decide (cellKey (cdiv (cmod 512 GRID) 2) (cdiv (cmod 512 GRID) 2) o = 2))) ≤ 6 :=
  select_refstar_cell_cap collideObjs 512 512 (by decide) 2

/-- General-case selection loop as the spec narrates it, parameterized
by the two cell-index functions: candidates are visited in their
incoming order; one with `i = cols` or `j = rows` is discarded outright;
otherwise it is accepted while the occupancy counter at `i*j` is at most
5, and acceptance increments that counter. -/
def selectLoop (fi fj : Aobject → ℤ) (cols rows : ℤ) (cnt : ℤ → ℤ) :
    List Aobject → List Aobject
  | [] => []
  | o :: rest =>
    if fi o = cols ∨ fj o = rows then selectLoop fi fj cols rows cnt rest
    else if cnt (fi o * fj o) ≤ 5 then
      o :: selectLoop fi fj cols rows
        (Function.update cnt (fi o * fj o) (cnt (fi o * fj o) + 1)) rest
    else selectLoop fi fj cols rows cnt rest

theorem foldl_selectStep_eq_selectLoop (x0 y0 nw nh : ℤ) (objs : List Aobject)
    (st : (ℤ → ℤ) × List Aobject) :
    (objs.foldl (selectStep x0 y0 nw nh) st).2 =
      st.2 ++ selectLoop (cellI x0) (cellJ y0) nw nh st.1 objs := by
  induction objs generalizing st with
  | nil => simp [selectLoop]
  | cons o rest ih =>
      simp only [List.foldl_cons, selectLoop, selectStep]
      by_cases hd : cellI x0 o = nw ∨ cellJ y0 o = nh
      · rw [if_pos hd, if_pos hd, ih]
      · rw [if_neg hd, if_neg hd]
        by_cases hc : st.1 (cellI x0 o * cellJ y0 o) ≤ 5
        · rw [if_pos hc, if_pos hc, ih]
          simp
        · rw [if_neg hc, if_neg hc, ih]

/-- Cell indices exactly as claim C6 words them:
`i = floor((x - x0)/cell_size)`. -/
def floorI (x0 : ℤ) (o : Aobject) : ℤ := ⌊(o.x - (x0 : ℚ)) / (GRID : ℚ)⌋

/-- Row analogue of `floorI`, as claim C6 words it. -/
def floorJ (y0 : ℤ) (o : Aobject) : ℤ := ⌊(o.y - (y0 : ℚ)) / (GRID : ℚ)⌋

/-- Reference selection as claim C6 describes it: identical to the code
except that the cell indices are computed with `floor` instead of the C
cast's truncation toward zero. -/
def select_floor_spec (objs : List Aobject) (w ht : ℤ) : List Aobject :=
  let nw := cdiv (w + GRID - 1) GRID
  let nh := cdiv (ht + GRID - 1) GRID
  if nw * nh < 4 then objs
  else
    selectLoop (floorI (cdiv (cmod w GRID) 2)) (floorJ (cdiv (cmod ht GRID) 2))
      nw nh (fun _ => 0) objs

/-- C6 (amended): in the general case `select_refstar` centers the grid
at `x0 = (w tmod 128)/2`, `y0 = (h tmod 128)/2`, computes each
candidate's cell as the truncation toward zero of `(x-x0)/128` and
`(y-y0)/128` (floor only for coordinates at or beyond the offset),
discards entirely any candidate with `i = cols` or `j = rows`, and
otherwise runs the capped per-counter acceptance loop. -/
theorem select_refstar_general_char (objs : List Aobject) (w ht : ℤ)
    (hbig : ¬ cdiv (w + GRID - 1) GRID * cdiv (ht + GRID - 1) GRID < 4) :
    select_refstar objs w ht =
      selectLoop (cellI (cdiv (cmod w GRID) 2)) (cellJ (cdiv (cmod ht GRID) 2))
        (cdiv (w + GRID - 1) GRID) (cdiv (ht + GRID - 1) GRID) (fun _ => 0) objs := by
  rw [select_refstar_general objs w ht _ _ _ _ rfl rfl hbig rfl rfl,
    foldl_selectStep_eq_selectLoop]
  simp

theorem floor_div_128 (a : ℤ) : ⌊(a : ℚ) / 128⌋ = a / 128 := by
  have h2 : ((128 : ℚ)) = ((128 : ℕ) : ℚ) := by norm_num
  rw [h2, Rat.floor_intCast_div_natCast]
  norm_num

theorem floorI_int (x0 n : ℤ) (o : Aobject) (hx : o.x = (n : ℚ)) :
    floorI x0 o = (n - x0) / 128 := by
  unfold floorI GRID
  have h1 : (o.x - (x0 : ℚ)) / (((128 : ℤ)) : ℚ) = (((n - x0 : ℤ)) : ℚ) / 128 := by
    rw [hx]; push_cast; ring
  rw [h1, floor_div_128]

theorem floorJ_int (y0 n : ℤ) (o : Aobject) (hy : o.y = (n : ℚ)) :
    floorJ y0 o = (n - y0) / 128 := by
  unfold floorJ GRID
  have h1 : (o.y - (y0 : ℚ)) / (((128 : ℤ)) : ℚ) = (((n - y0 : ℤ)) : ℚ) / 128 := by
    rw [hy]; push_cast; ring
  rw [h1, floor_div_128]

theorem select_floor_spec_general (objs : List Aobject) (w ht nw nh x0 y0 : ℤ)
    (h1 : cdiv (w + GRID - 1) GRID = nw) (h2 : cdiv (ht + GRID - 1) GRID = nh)
    (h3 : ¬ nw * nh < 4)
    (h4 : cdiv (cmod w GRID) 2 = x0) (h5 : cdiv (cmod ht GRID) 2 = y0) :
    select_floor_spec objs w ht = selectLoop (floorI x0) (floorJ y0) nw nh (fun _ => 0) objs := by
  unfold select_floor_spec
  rw [h1, h2, h4, h5, if_neg h3]

/-! Concrete data exercising C6's floor-versus-truncation divergence: a
200×512 image (grid 2×4, offsets `x0 = 36`, `y0 = 0`).  Six stars sit
at `x = 40` (cell column 0 either way) and a seventh at `x = 0`, where
the C cast yields column `trunc(-36/128) = 0` but the spec's floor
yields `-1`. -/

def starC1 : Aobject := ⟨40, 50, 100, 2, 1⟩

def starC2 : Aobject := ⟨40, 50, 99, 2, 1⟩

def starC3 : Aobject := ⟨40, 50, 98, 2, 1⟩

def starC4 : Aobject := ⟨40, 50, 97, 2, 1⟩

def starC5 : Aobject := ⟨40, 50, 96, 2, 1⟩

def starC6 : Aobject := ⟨40, 50, 95, 2, 1⟩

def starC7 : Aobject := ⟨0, 140, 94, 2, 1⟩

def floorObjs : List Aobject :=
  [starC1, starC2, starC3, starC4, starC5, starC6, starC7]

theorem cellI_starC (o : Aobject) (hx : o.x = 40) : cellI 36 o = 0 := by
  rw [cellI_int 36 40 o (by rw [hx]; norm_num)]; decide

theorem cellJ_starC (o : Aobject) (hy : o.y = 50) : cellJ 0 o = 0 := by
  rw [cellJ_int 0 50 o (by rw [hy]; norm_num)]; decide

theorem cellI_starC7 : cellI 36 starC7 = 0 := by
  rw [cellI_int 36 0 starC7 (by norm_num [starC7])]; decide

theorem cellJ_starC7 : cellJ 0 starC7 = 1 := by
  rw [cellJ_int 0 140 starC7 (by norm_num [starC7])]; decide

theorem floorI_starC (o : Aobject) (hx : o.x = 40) : floorI 36 o = 0 := by
  rw [floorI_int 36 40 o (by rw [hx]; norm_num)]; decide

theorem floorJ_starC (o : Aobject) (hy : o.y = 50) : floorJ 0 o = 0 := by
  rw [floorJ_int 0 50 o (by rw [hy]; norm_num)]; decide

theorem floorI_starC7 : floorI 36 starC7 = -1 := by
  rw [floorI_int 36 0 starC7 (by norm_num [starC7])]; decide

theorem floorJ_starC7 : floorJ 0 starC7 = 1 := by
  rw [floorJ_int 0 140 starC7 (by norm_num [starC7])]; decide

theorem select_refstar_floorObjs :
    select_refstar floorObjs 200 512 = [starC1, starC2, starC3, starC4, starC5, starC6] := by
  rw [select_refstar_general floorObjs 200 512 2 4 36 0 (by decide) (by decide)
    (by decide) (by decide) (by decide)]
  simp only [floorObjs, List.foldl_cons, List.foldl_nil, selectStep,
    cellI_starC starC1 (by norm_num [starC1]), cellJ_starC starC1 (by norm_num [starC1]),
    cellI_starC starC2 (by norm_num [starC2]), cellJ_starC starC2 (by norm_num [starC2]),
    cellI_starC starC3 (by norm_num [starC3]), cellJ_starC starC3 (by norm_num [starC3]),
    cellI_starC starC4 (by norm_num [starC4]), cellJ_starC starC4 (by norm_num [starC4]),
    cellI_starC starC5 (by norm_num [starC5]), cellJ_starC starC5 (by norm_num [starC5]),
    cellI_starC starC6 (by norm_num [starC6]), cellJ_starC starC6 (by norm_num [starC6]),
    cellI_starC7, cellJ_starC7, Function.update_apply]
  norm_num

theorem select_floor_spec_floorObjs :
    select_floor_spec floorObjs 200 512 =
      [starC1, starC2, starC3, starC4, starC5, starC6, starC7] := by
  rw [select_floor_spec_general floorObjs 200 512 2 4 36 0 (by decide) (by decide)
    (by decide) (by decide) (by decide)]
  simp only [floorObjs, selectLoop,
    floorI_starC starC1 (by norm_num [starC1]), floorJ_starC starC1 (by norm_num [starC1]),
    floorI_starC starC2 (by norm_num [starC2]), floorJ_starC starC2 (by norm_num [starC2]),
    floorI_starC starC3 (by norm_num [starC3]), floorJ_starC starC3 (by norm_num [starC3]),
    floorI_starC starC4 (by norm_num [starC4]), floorJ_starC starC4 (by norm_num [starC4]),
    floorI_starC starC5 (by norm_num [starC5]), floorJ_starC starC5 (by norm_num [starC5]),
    floorI_starC starC6 (by norm_num [starC6]), floorJ_starC starC6 (by norm_num [starC6]),
    floorI_starC7, floorJ_starC7, Function.update_apply]
  norm_num

/-- C6 is false as stated: the code truncates toward zero when casting
the float quotient to `int`, which differs from the spec's floor for a
candidate left of the grid origin.  At `x = 0` with offset `x0 = 36`
the code computes column `0` while `floor((0-36)/128) = -1`, and on a
200×512 image this changes the selected reference list. -/
theorem select_refstar_index_not_floor :
    cellI 36 starC7 = 0 ∧ floorI 36 starC7 = -1 ∧
      select_refstar floorObjs 200 512 ≠ select_floor_spec floorObjs 200 512 := by
  refine ⟨cellI_starC7, floorI_starC7, ?_⟩
  rw [select_refstar_floorObjs, select_floor_spec_floorObjs]
  decide

theorem select_refstar_general_char_witness :
    select_refstar floorObjs 200 512 =
      selectLoop (cellI (cdiv (cmod 200 GRID) 2)) (cellJ (cdiv (cmod 512 GRID) 2))
        (cdiv (200 + GRID - 1) GRID) (cdiv (512 + GRID - 1) GRID) (fun _ => 0) floorObjs :=
  select_refstar_general_char floorObjs 200 512 (by decide)

/-- C7 (amended): after a successful catalog load, fewer than 5 selected
reference stars makes the driver report `"not found enough reference
stars"` and write no file; with 5 or more it invokes the writer exactly
once, on the input path with its extension replaced by `.axy`. -/
theorem driver_threshold (cat : Option (List CatLine)) (path : String) (w ht : ℤ)
    (objs : List Aobject) (hload : load_cat cat = some objs) :
    ((select_refstar objs w ht).length < 5 →
        runDriver cat path w ht =
          DriverResult.notEnoughRefs "not found enough reference stars") ∧
      (5 ≤ (select_refstar objs w ht).length →
        runDriver cat path w ht =
          DriverResult.wroteFile (replace_extension_axy path) (select_refstar objs w ht)) := by
  unfold runDriver
  rw [hload]
  dsimp only
  constructor
  · intro h5
    rw [if_neg (by omega)]
  · intro h5
    rw [if_pos h5]

theorem driver_threshold_witness :
    (5 ≤ (select_refstar
        [⟨1, 2, 50, 2, 1⟩, ⟨2, 3, 49, 2, 1⟩, ⟨3, 4, 48, 2, 1⟩, ⟨4, 5, 47, 2, 1⟩,
          ⟨5, 6, 46, 2, 1⟩] 100 100).length) ∧
      runDriver
          (some [CatLine.data [1, 2, 50, 2, 1], CatLine.data [2, 3, 49, 2, 1],
            CatLine.data [3, 4, 48, 2, 1], CatLine.data [4, 5, 47, 2, 1],
            CatLine.data [5, 6, 46, 2, 1]]) "sample.cat" 100 100 =
        DriverResult.wroteFile (replace_extension_axy "sample.cat")
          (select_refstar
            [⟨1, 2, 50, 2, 1⟩, ⟨2, 3, 49, 2, 1⟩, ⟨3, 4, 48, 2, 1⟩, ⟨4, 5, 47, 2, 1⟩,
              ⟨5, 6, 46, 2, 1⟩] 100 100) :=
  ⟨by decide,
    (driver_threshold
        (some [CatLine.data [1, 2, 50, 2, 1], CatLine.data [2, 3, 49, 2, 1],
          CatLine.data [3, 4, 48, 2, 1], CatLine.data [4, 5, 47, 2, 1],
          CatLine.data [5, 6, 46, 2, 1]]) "sample.cat" 100 100
        [⟨1, 2, 50, 2, 1⟩, ⟨2, 3, 49, 2, 1⟩, ⟨3, 4, 48, 2, 1⟩, ⟨4, 5, 47, 2, 1⟩,
          ⟨5, 6, 46, 2, 1⟩] (by decide)).2 (by decide)⟩

/-- C7 is false as stated: the insufficient-references message printed
by `main` is `"not found enough reference stars"`, not the spec's
`"not enough reference stars"`. -/
theorem driver_message_counterexample :
    runDriver (some []) "sample.cat" 512 512 =
        DriverResult.notEnoughRefs "not found enough reference stars" ∧
      "not found enough reference stars" ≠ "not enough reference stars" := by
  exact ⟨by decide, by decide⟩

theorem passFilter_short (toks : List ℚ) (h : toks.length < 4) :
    passFilter (parseObject toks) = false := by
  have hfwhm : (parseObject toks).fwhm = 0 := by
    unfold parseObject
    exact List.getD_eq_default _ _ (by omega)
  unfold passFilter
  rw [hfwhm]
  norm_num

/-- C8 (amended): every record in the candidate list is built by parsing
the first five tokens of one of the catalog's data lines, missing
trailing fields staying zero; a line with fewer than four tokens never
contributes a record, since its `fwhm` (or `flux`) stays `0` and fails
the admission filter (a four-token line, however, can pass, its default
`elongation = 0` satisfying `< 2.0`). -/
theorem load_cat_records_from_lines (ls : List CatLine) (objs : List Aobject)
    (hload : load_cat (some ls) = some objs) :
    (∀ o ∈ objs, ∃ toks, CatLine.data toks ∈ ls ∧ o = parseObject toks) ∧
      ∀ toks : List ℚ, toks.length < 4 → passFilter (parseObject toks) = false := by
  constructor
  · intro o ho
    have h2 : o ∈ parsedObjects ls := ((mem_load_cat ls objs o hload).mp ho).1
    unfold parsedObjects at h2
    rw [List.mem_filterMap] at h2
    obtain ⟨l, hl, hf⟩ := h2
    cases l with
    | comment => simp at hf
    | data toks => exact ⟨toks, hl, (Option.some_inj.mp hf).symm⟩
  · exact passFilter_short

theorem load_cat_records_from_lines_witness :
    (∃ toks, CatLine.data toks ∈ [CatLine.data [1, 2, 50, 3, 1]] ∧
        (⟨1, 2, 50, 3, 1⟩ : Aobject) = parseObject toks) ∧
      passFilter (parseObject [1, 2, 50]) = false :=
  ⟨(load_cat_records_from_lines [CatLine.data [1, 2, 50, 3, 1]] [⟨1, 2, 50, 3, 1⟩]
      (by decide)).1 ⟨1, 2, 50, 3, 1⟩ (by decide),
    (load_cat_records_from_lines [CatLine.data [1, 2, 50, 3, 1]] [⟨1, 2, 50, 3, 1⟩]
      (by decide)).2 [1, 2, 50] (by decide)⟩

/-- C8 is false as stated: a four-token line (fewer than five tokens)
does contribute a record; its elongation field is never parsed and
defaults to `0`, which passes the `< 2.0` cut. -/
theorem short_line_contributes :
    (([1, 2, 50, 3] : List ℚ).length < 5) ∧
      load_cat (some [CatLine.data [1, 2, 50, 3]]) = some [⟨1, 2, 50, 3, 0⟩] :=
  ⟨by decide, by decide⟩

/-- A catalog line that dies before the admission filter: a comment, or
a data line of fewer than four tokens (whose defaulted `flux`/`fwhm`
fields fail the filter). -/
def harmlessLine : CatLine → Bool
  | CatLine.comment => true
  | CatLine.data toks => decide (toks.length < 4)

/-- C9 (amended): `load_cat` fails iff the file cannot be opened; an
empty candidate list is a valid success result, and in particular a
catalog of only comment lines and lines of fewer than four tokens
yields an empty candidate list with a success return (a four-token line
can contribute a record, so "fewer than five" does not suffice). -/
theorem load_cat_failure_iff (cat : Option (List CatLine)) (ls : List CatLine)
    (hline : ∀ l ∈ ls, harmlessLine l = true) :
    (load_cat cat = none ↔ cat = none) ∧ load_cat (some ls) = some [] := by
  constructor
  · cases cat with
    | none => simp [load_cat]
    | some ls' => simp [load_cat]
  · unfold load_cat
    have hfilter : (parsedObjects ls).filter passFilter = [] := by
      rw [List.filter_eq_nil_iff]
      intro a ha
      unfold parsedObjects at ha
      rw [List.mem_filterMap] at ha
      obtain ⟨l, hl, hf⟩ := ha
      have hh := hline l hl
      cases l with
      | comment => simp at hf
      | data toks =>
          have ha2 : a = parseObject toks := (Option.some_inj.mp hf).symm
          have hlen : toks.length < 4 := by
            unfold harmlessLine at hh
            exact of_decide_eq_true hh
          rw [ha2, passFilter_short toks hlen]
          simp
    dsimp only
    rw [hfilter]
    rfl

theorem load_cat_failure_iff_witness :
    ((load_cat (some [CatLine.comment, CatLine.data [1, 2]]) = none ↔
        (some [CatLine.comment, CatLine.data [1, 2]] : Option (List CatLine)) = none) ∧
      load_cat (some [CatLine.comment, CatLine.data [1, 2]]) = some []) :=
  load_cat_failure_iff (some [CatLine.comment, CatLine.data [1, 2]])
    [CatLine.comment, CatLine.data [1, 2]] (by decide)

/-- C9 is false as stated: a readable catalog whose only line has four
tokens (fewer than five) loads successfully but yields a non-empty
candidate list. -/
theorem short_token_catalog_nonempty :
    (([1, 2, 50, 3] : List ℚ).length < 5) ∧
      load_cat (some [CatLine.data [1, 2, 50, 3]]) ≠ some [] :=
  ⟨by decide, by decide⟩

/-- C10: `boost::make_shared<aobject>()` value-initializes the record,
so every field beyond the parsed tokens is exactly `0`; consequently a
line with fewer than three tokens leaves `flux = 0`, which fails
`flux > 30.0`, so such lines are always rejected by the admission
filter. -/
theorem parseObject_zero_default (toks : List ℚ) :
    (∀ n : ℕ, n < 5 → toks.length ≤ n → (parseObject toks).info n = 0) ∧
      (toks.length < 3 →
        (parseObject toks).flux = 0 ∧ passFilter (parseObject toks) = false) := by
  constructor
  · intro n hn hlen
    interval_cases n <;>
      simp [parseObject, Aobject.info, List.getElem?_eq_none hlen]
  · intro hlen
    have hflux : (parseObject toks).flux = 0 := by
      unfold parseObject
      exact List.getD_eq_default _ _ (by omega)
    refine ⟨hflux, ?_⟩
    unfold passFilter
    rw [hflux]
    norm_num

theorem parseObject_zero_default_witness :
    (parseObject [1, 2]).info 3 = 0 ∧
      ((parseObject [1, 2]).flux = 0 ∧ passFilter (parseObject [1, 2]) = false) :=
  ⟨(parseObject_zero_default [1, 2]).1 3 (by decide) (by decide),
    (parseObject_zero_default [1, 2]).2 (by decide)⟩

end Cat2Axy
